import Mathlib

/-!
Shallow embedding of `src/src/App.tsx` (CIA prototype): text normalizer,
region (ICMP) classifier, narrative builders, monitoring-plan deriver,
DOCX exporters and the self-check marker assertion, together with proofs
of the specification claims about them.

Strings are modelled as Lean `String` (lists of Unicode code points).
JavaScript regular expressions are embedded by a small matcher covering
exactly the constructs the source's patterns use: literal characters,
top-level alternation, word boundaries `\b`, whitespace `\s` with `?`/`*`
quantifiers and an optional literal (`s?`).  `RegExp.test` semantics
(match anywhere in the string) is `regexTest`.
-/

namespace CIA

/-- JS regex word character (`\w` / `\b` classification): `[A-Za-z0-9_]`. -/
def isWordChar (c : Char) : Bool :=
  (65 ≤ c.toNat && c.toNat ≤ 90) || (97 ≤ c.toNat && c.toNat ≤ 122) ||
  (48 ≤ c.toNat && c.toNat ≤ 57) || c = '_'

/-- Whitespace for JS `\s` and `/\s+/g`, restricted to the ASCII whitespace
characters (the repertoire the program manipulates). -/
def isSpaceChar (c : Char) : Bool :=
  c = ' ' || c = '\t' || c = '\n' || c = '\r' || c.toNat = 12 || c.toNat = 11

/-- Combining diacritical marks U+0300..U+036F, the block removed by
`.replace(/\p{Diacritic}/gu, "")` after NFD (restricted to the block that
covers every diacritic the program manipulates). -/
def isCombiningMark (c : Char) : Bool :=
  0x300 ≤ c.toNat && c.toNat ≤ 0x36F

/-- Character-level model of `toLowerCase` + NFD + diacritic stripping, as
a table: ASCII uppercase lower-cases, macron vowels (either case) decompose
to their plain base letter.  Characters outside the table are handled by
`normChar`'s default cases. -/
def normTable : List (Char × List Char) :=
  [('A', ['a']), ('B', ['b']), ('C', ['c']), ('D', ['d']), ('E', ['e']),
   ('F', ['f']), ('G', ['g']), ('H', ['h']), ('I', ['i']), ('J', ['j']),
   ('K', ['k']), ('L', ['l']), ('M', ['m']), ('N', ['n']), ('O', ['o']),
   ('P', ['p']), ('Q', ['q']), ('R', ['r']), ('S', ['s']), ('T', ['t']),
   ('U', ['u']), ('V', ['v']), ('W', ['w']), ('X', ['x']), ('Y', ['y']),
   ('Z', ['z']),
   ('Ā', ['a']), ('ā', ['a']), ('Ē', ['e']), ('ē', ['e']),
   ('Ī', ['i']), ('ī', ['i']), ('Ō', ['o']), ('ō', ['o']),
   ('Ū', ['u']), ('ū', ['u'])]

/-- One character's normalized image under `normalizeForMatch`: table
characters map to their lower-cased, diacritic-free decomposition,
combining marks are dropped, every other character is unchanged. -/
def normChar (c : Char) : List Char :=
  match List.lookup c normTable with
  | some out => out
  | none => if isCombiningMark c then [] else [c]

/-- `normChar` mapped over a character list. -/
def normList : List Char → List Char
  | [] => []
  | c :: rest => normChar c ++ normList rest

/-- Model of `normalizeForMatch` (App.tsx lines 30-36): lower-case,
canonical decomposition, strip combining diacritics. -/
def normalizeForMatch (input : String) : String :=
  ⟨normList input.data⟩

/-- Model of the `(input || "")` coalescing in `normalizeForMatch`: an
absent (undefined) input normalizes like the empty string. -/
def normalizeForMatchOpt (input : Option String) : String :=
  normalizeForMatch (input.getD "")

-- -------------------------------------------------------------------
-- Mini regex engine

/-- One token of a source regex alternative. -/
inductive Tok where
  | lit (c : Char)
  | wb
  | wsOpt
  | wsStar
  | optLit (c : Char)
deriving DecidableEq

/-- Literal characters of a string as regex tokens. -/
def lits (s : String) : List Tok :=
  s.data.map Tok.lit

/-- Is the character left of the current position (if any) a word char? -/
def isWordOpt : Option Char → Bool
  | none => false
  | some c => isWordChar c

/-- Is the character at the current position (if any) a word char? -/
def isWordNext : List Char → Bool
  | [] => false
  | c :: _ => isWordChar c

/-- All `(previous character, remaining suffix)` states reachable by
consuming zero or more whitespace characters (the choices of `\s*`). -/
def spaceSplits (prev : Option Char) : List Char → List (Option Char × List Char)
  | [] => [(prev, [])]
  | c :: rest =>
      (prev, c :: rest) ::
        (if isSpaceChar c then spaceSplits (some c) rest else [])

/-- Match a token list against the string suffix `s`, `prev` being the
character immediately before the current position (for `\b`).  Returns
true when some way of consuming tokens matches a prefix of `s`. -/
def matchToks : List Tok → Option Char → List Char → Bool
  | [], _, _ => true
  | .wb :: ts, prev, s =>
      (isWordOpt prev != isWordNext s) && matchToks ts prev s
  | .lit _ :: _, _, [] => false
  | .lit c :: ts, _, d :: rest =>
      d = c && matchToks ts (some d) rest
  | .optLit c :: ts, prev, s =>
      matchToks ts prev s ||
        (match s with
         | d :: rest => d = c && matchToks ts (some d) rest
         | [] => false)
  | .wsOpt :: ts, prev, s =>
      matchToks ts prev s ||
        (match s with
         | d :: rest => isSpaceChar d && matchToks ts (some d) rest
         | [] => false)
  | .wsStar :: ts, prev, s =>
      (spaceSplits prev s).any fun pr => matchToks ts pr.1 pr.2

/-- Search for a match of one alternative at any starting position. -/
def searchFrom (alt : List Tok) (prev : Option Char) : List Char → Bool
  | [] => matchToks alt prev []
  | c :: rest => matchToks alt prev (c :: rest) || searchFrom alt (some c) rest

/-- A regex is a list of alternatives; `regexTest r s` models
`/a1|a2|.../.test(s)`. -/
def regexTest (r : List (List Tok)) (s : List Char) : Bool :=
  r.any fun alt => searchFrom alt none s

-- -------------------------------------------------------------------
-- ICMP dictionaries and classifier (App.tsx lines 14-57)

/-- A council region: name plus its pattern list. -/
structure Area where
  name : String
  patterns : List (List (List Tok))
deriving DecidableEq

/-- Hamilton City Council ICMP dictionary (App.tsx lines 14-22). -/
def HCC_ICMPS : List Area :=
  [{ name := "Peacocke ICMP",
     patterns := [[[Tok.wb] ++ lits "peacocke" ++ [Tok.wb],
                   [Tok.wb] ++ lits "peacocks" ++ [Tok.wb]]] },
   { name := "Rotokauri ICMP",
     patterns := [[[Tok.wb] ++ lits "rotokauri" ++ [Tok.wb]]] },
   { name := "Te Rapa ICMP",
     patterns := [[lits "te" ++ [Tok.wsOpt] ++ lits "rapa",
                   [Tok.wb] ++ lits "pukete" ++ [Tok.wb],
                   [Tok.wb] ++ lits "northgate" ++ [Tok.wb]]] },
   { name := "Rototuna ICMP",
     patterns := [[[Tok.wb] ++ lits "rototuna" ++ [Tok.wb],
                   [Tok.wb] ++ lits "flagstaff" ++ [Tok.wb],
                   [Tok.wb] ++ lits "chartwell" ++ [Tok.wb]]] },
   { name := "Ruakura ICMP",
     patterns := [[[Tok.wb] ++ lits "ruakura" ++ [Tok.wb],
                   [Tok.wb] ++ lits "hillcrest" ++ [Tok.wb],
                   [Tok.wb] ++ lits "silverdale" ++ [Tok.wb],
                   [Tok.wb] ++ lits "university" ++ [Tok.wb]]] },
   { name := "Waitawhiriwhiri ICMP",
     patterns := [[lits "waitawhiriwhiri", lits "beerescourt",
                   lits "forest" ++ [Tok.wsStar] ++ lits "lake" ++ [Tok.optLit 's'],
                   lits "frankton", lits "clarkin", lits "bryant"]] },
   { name := "Mangakotukutuku ICMP",
     patterns := [[lits "mangakotukutuku", lits "glenview", lits "melville",
                   lits "fitzroy", lits "bader", lits "kahikatea", lits "ohaupo"]] }]

/-- Waikato District Council ICMP dictionary (App.tsx lines 24-28). -/
def WDC_ICMPS : List Area :=
  [{ name := "Ngāruawāhia ICMP",
     patterns := [[lits "ngaruawahia", lits "ngāruawāhia", lits "hopuhopu"]] },
   { name := "Huntly ICMP",
     patterns := [[[Tok.wb] ++ lits "huntly" ++ [Tok.wb],
                   [Tok.wb] ++ lits "rahuipokeka" ++ [Tok.wb]]] },
   { name := "Te Kauwhata ICMP",
     patterns := [[lits "te" ++ [Tok.wsStar] ++ lits "kauwhata",
                   lits "waerenga", lits "meremere"]] }]

/-- `area.patterns.some((p) => p.test(loc))`. -/
def areaHits (loc : List Char) (a : Area) : Bool :=
  a.patterns.any fun p => regexTest p loc

/-- Model of `inferICMP` (App.tsx lines 38-47). -/
def inferICMP (location councilName : String) : String :=
  let loc := normalizeForMatch location
  if councilName = "Hamilton City Council" then
    match HCC_ICMPS.find? (fun a => areaHits loc.data a) with
    | some hit => hit.name
    | none => "Hamilton City ICMP (area to confirm)"
  else
    match WDC_ICMPS.find? (fun a => areaHits loc.data a) with
    | some hit => hit.name
    | none => "Waikato District ICMP (area to confirm)"

/-- The `matches` list computed inside `inferICMPMatches` (App.tsx line 52):
matched region names, in dictionary-declaration order. -/
def icmpMatchList (location councilName : String) : List String :=
  let loc := normalizeForMatch location
  let dict := if councilName = "Hamilton City Council" then HCC_ICMPS else WDC_ICMPS
  (dict.filter (fun a => areaHits loc.data a)).map Area.name

/-- Model of `inferICMPMatches` (App.tsx lines 49-57). -/
def inferICMPMatches (location councilName : String) : List String :=
  let ms := icmpMatchList location councilName
  if ms.length = 0 then
    [if councilName = "Hamilton City Council" then
       "Hamilton City ICMP (area to confirm)"
     else
       "Waikato District ICMP (area to confirm)"]
  else ms

-- -------------------------------------------------------------------
-- Auto-detect handler state (App.tsx lines 62-69 and 86-99)

/-- The slice of component state the ICMP auto-detect handler touches. -/
structure UIState where
  inferredICMP : String
  icmpOptions : List String
  showIcmpModal : Bool
  icmpTemp : String
deriving DecidableEq

/-- Initial values of that state (App.tsx lines 66-69). -/
def initState : UIState :=
  { inferredICMP := "(not set)", icmpOptions := [], showIcmpModal := false,
    icmpTemp := "(not set)" }

/-- Model of `handleAutoDetectICMP` (App.tsx lines 86-99): at most one
match resolves directly, two or more surface the chooser modal with the
match list and the first match as tentative default, leaving the
previously resolved label untouched. -/
def handleAutoDetectICMP (projectLocation council : String) (s : UIState) : UIState :=
  let ms := inferICMPMatches projectLocation council
  if ms.length ≤ 1 then
    { s with
      inferredICMP :=
        ms.headD
          (if council = "Hamilton City Council" then
             "Hamilton City ICMP (area to confirm)"
           else
             "Waikato District ICMP (area to confirm)"),
      icmpOptions := [], showIcmpModal := false }
  else
    { s with
      icmpOptions := ms,
      icmpTemp := ms.headD "(not set)",
      showIcmpModal := true }

-- -------------------------------------------------------------------
-- Case mapping (JS toUpperCase / toLowerCase on the program repertoire)

/-- Model of `String.prototype.toUpperCase` on the character repertoire the
program manipulates: ASCII letters and macron vowels. -/
def upperChar (c : Char) : Char :=
  if 97 ≤ c.toNat ∧ c.toNat ≤ 122 then Char.ofNat (c.toNat - 32)
  else if c = 'ā' then 'Ā' else if c = 'ē' then 'Ē' else if c = 'ī' then 'Ī'
  else if c = 'ō' then 'Ō' else if c = 'ū' then 'Ū' else c

/-- `toUpperCase` over a string. -/
def strUpper (s : String) : String := ⟨s.data.map upperChar⟩

/-- Model of `String.prototype.toLowerCase` on the same repertoire. -/
def lowerChar (c : Char) : Char :=
  if 65 ≤ c.toNat ∧ c.toNat ≤ 90 then Char.ofNat (c.toNat + 32)
  else if c = 'Ā' then 'ā' else if c = 'Ē' then 'ē' else if c = 'Ī' then 'ī'
  else if c = 'Ō' then 'ō' else if c = 'Ū' then 'ū' else c

/-- `toLowerCase` over a string. -/
def strLower (s : String) : String := ⟨s.data.map lowerChar⟩

/-- `needle` is a prefix of `hay` (Boolean). -/
def isPrefixB : List Char → List Char → Bool
  | [], _ => true
  | _ :: _, [] => false
  | a :: as, b :: bs => a = b && isPrefixB as bs

/-- Model of `String.prototype.includes`: `needle` occurs in `hay`. -/
def containsB (needle : List Char) : List Char → Bool
  | [] => isPrefixB needle []
  | c :: rest => isPrefixB needle (c :: rest) || containsB needle rest

/-- JS `Array.prototype.join(sep)`. -/
def joinSep (sep : String) : List String → String
  | [] => ""
  | [a] => a
  | a :: b :: rest => a ++ sep ++ joinSep sep (b :: rest)

-- -------------------------------------------------------------------
-- Finding repository (App.tsx lines 103-375)

/-- `TriggerSpec` (App.tsx lines 103-109). -/
structure TriggerSpec where
  metrics : List String
  baselines : String
  thresholds : List String
  actions : List String
  reporting : String
deriving DecidableEq

/-- `Effects` (App.tsx lines 111-116). -/
structure Effects where
  cultural : List String
  social : List String
  environmental : List String
  spiritual : List String
deriving DecidableEq

/-- `Finding` (App.tsx lines 118-127). -/
structure Finding where
  category : String
  issue : String
  effects : Effects
  mitigations : List String
  recommendations : List String
  triggers : TriggerSpec
  policyLinks : List String
  consentClauses : List String
deriving DecidableEq

/-- The static finding repository `sampleFindings` (App.tsx lines 129-375). -/
def sampleFindings : List Finding :=
  [
  { category := "wai",
    issue := "Potential degradation of mauri and clarity in tributary due to earthworks sediment discharges",
    effects :=
      { cultural := ["Mauri of the awa diminished; disruption to mahinga kai practices",
            "Reduced ability for whānau to gather kai safely"],
        social := ["Community concern over river health; trust impacts"],
        environmental := ["Elevated NTU and TSS; smothering of habitat; fish passage stress"],
        spiritual := ["Tapu/noa balance affected where discharges occur near wāhi tapu"] },
    mitigations := ["Install staged sediment retention ponds sized to Hamilton District Plan GD05 guidance; monitor turbidity (NTU) daily.",
        "No instream works during tuna migration periods; implement 25 m riparian buffer in sensitive reaches."],
    recommendations := ["Co-design mahinga kai monitoring with mana whenua; quarterly wānanga to review data and adaptive actions.",
        "Embed Te Ture Whaimana vision-objectives as assessment criteria in contractor EMS (Environmental Management System)."],
    triggers :=
      { metrics := ["NTU (turbidity)",
            "TSS (mg/L)",
            "E. coli (cfu/100 mL)",
            "Visual clarity (m)",
            "Mahinga kai presence/abundance (tuna/īnanga)"],
        baselines := "Establish 4-week pre-works baseline for NTU/clarity and cultural health index (CHI) with mana whenua.",
        thresholds := ["NTU > baseline + 25% for >24h",
            "Clarity < 1.6 m during fine weather",
            "Any exceedance at mahinga kai sites"],
        actions := ["Stop high-risk works; inspect ESCP; deploy additional treatment within 24h",
            "Notify mana whenua and Council within 1 working day",
            "Hold hui within 5 working days to agree corrective actions"],
        reporting := "Quarterly report + dashboard; immediate incident reports when thresholds tripped." },
    policyLinks := ["Te Ture Whaimana - Vision and Objective 1 (health and wellbeing of the Waikato River)",
        "Tai Tumu, Tai Pari, Tai Ao EMP - Wai: water quality, mahinga kai protection",
        "Hamilton District Plan - 25.14 Infrastructure; erosion/sediment control standards"],
    consentClauses := ["Prior to works, the consent holder must submit an Erosion and Sediment Control Plan (ESCP) prepared by a suitably qualified person, demonstrating compliance with GD05 and avoiding instream works during identified migration windows for tuna/īnanga.",
        "Establish a Mauri Monitoring Programme co-developed with mana whenua that sets baseline and trigger levels (including NTU and clarity), provides for mahinga kai assessments, and requires adaptive responses within 10 working days if triggers are exceeded."] },
  { category := "whenua",
    issue := "Loss of topsoil and disturbance of known urupā risk area within 200 m of works",
    effects :=
      { cultural := ["Risk to wāhi tapu/wāhi tūpuna; mamae if disturbance occurs"],
        social := ["Project delays and conflict if discovery process unclear"],
        environmental := ["Erosion risk; reduced soil productivity if not salvaged"],
        spiritual := ["Tapu breach potential requiring tikanga responses"] },
    mitigations := ["Cultural discovery protocol with immediate stop-work and notification process.",
        "Topsoil salvage and reuse plan to support revegetation with taonga species."],
    recommendations := ["Archaeological Authority (HNZPT) pre-works; mana whenua monitors present during initial ground-breaking.",
        "GIS mapping layer for wāhi tapu/wāhi tūpuna integrated into contractor inductions."],
    triggers :=
      { metrics := ["Protocol drills completed",
            "Monitor hours on-site",
            "Incidents recorded"],
        baselines := "Zero harm baseline (no unauthorised ground disturbance).",
        thresholds := ["Any suspected kōiwi or taonga triggers stop-work"],
        actions := ["Immediate stop-work; protect area; notify mana whenua, HNZPT, Police (if kōiwi)",
            "Undertake tikanga-led process; update methodology before resuming"],
        reporting := "Incident log shared within 24h; monthly summary including training and inductions." },
    policyLinks := ["Tai Tumu, Tai Pari, Tai Ao EMP - Whenua: protection of wāhi tapu, soils, and landscapes",
        "Hamilton/Waikato District Plan - Heritage and Archaeology provisions"],
    consentClauses := ["Implement a Cultural Discovery Protocol approved by mana whenua prior to commencement; all staff to be inducted and protocol kept onsite at all times.",
        "Require mana whenua cultural monitors to be present during initial stripping; consent holder to fund participation and reporting."] },
  { category := "whakapapa",
    issue := "Fragmentation of ecological corridors reducing connectivity for taonga species",
    effects :=
      { cultural := ["Disruption to whakapapa relationships among species and habitats"],
        social := ["Loss of local amenity and learning opportunities for rangatahi"],
        environmental := ["Barrier to fish passage; edge effects increase predators/weeds"],
        spiritual := ["Diminished wairua of place if connections severed"] },
    mitigations := ["Design wildlife-friendly culverts and fish passage; stage works to maintain connectivity."],
    recommendations := ["Planting palette guided by whakapapa of place (locally-sourced eco-sourced taonga species); 3-year establishment and pest control."],
    triggers :=
      { metrics := ["Fish passage scores (NIWA tool)",
            "Survival of plantings (%)",
            "Predator trap-catch"],
        baselines := "Pre-works fish passage survey and habitat mapping.",
        thresholds := ["Fish passage score < baseline",
            "Plant survival <85%"],
        actions := ["Remediate culverts; replace failed plantings; intensify pest control"],
        reporting := "Six-monthly ecological report + wānanga walkthrough." },
    policyLinks := ["Te Ture Whaimana - enhancement of ecological integrity",
        "Tai Tumu, Tai Pari, Tai Ao EMP - Whakapapa: intergenerational stewardship"],
    consentClauses := ["Fish passage to meet NIWA fish passage assessment tool thresholds; as-built certification prior to operation."] },
  { category := "whānau",
    issue := "Construction traffic and noise affecting marae access, tangihanga, and daily whānau life",
    effects :=
      { cultural := ["Disruption to marae protocols and ability to host kaupapa including tangihanga"],
        social := ["Increased stress; reduced community cohesion if engagement is weak"],
        environmental := ["Dust and vibration affecting nearby sensitive receivers"],
        spiritual := ["Disturbance to wairua during significant whānau events"] },
    mitigations := ["Traffic Management Plan (TMP) with marae input; avoid peak event times",
        "Construction Noise and Vibration Management Plan; onsite dust suppression"],
    recommendations := ["Co-design communications plan with mana whenua; 2-week lookahead notices",
        "Identify protected access windows around known marae events/tangihanga"],
    triggers :=
      { metrics := ["LAeq dB",
            "Number of complaints",
            "Access block incidents"],
        baselines := "Pre-works ambient noise survey and access mapping with whānau.",
        thresholds := [">2 substantiated access incidents/month",
            "Noise exceeds plan limits"],
        actions := ["Adjust work hours/routing; deploy additional acoustic barriers",
            "Hūtu wānanga within 5 working days to agree changes"],
        reporting := "Monthly community report; real-time hotline with log shared to mana whenua." },
    policyLinks := ["Tai Tumu, Tai Pari, Tai Ao EMP - Whānau and participation",
        "Applicable District Plan - Noise/traffic rules and engagement requirements"],
    consentClauses := ["Prepare and implement a TMP and Communications Plan co-designed with mana whenua, including protected access windows for marae and mechanisms for event-time pauses.",
        "Maintain a dedicated contact line and incident log accessible to mana whenua; implement corrective actions within 5 working days."] },
  { category := "mauri",
    issue := "Residual effects risk during storm events despite controls",
    effects :=
      { cultural := ["Perceived degradation of mauri during heavy rain events"],
        social := ["Community anxiety following spill/overflow rumours"],
        environmental := ["Pulse loads of sediments and contaminants"],
        spiritual := ["Loss of balance (tapu/noa) when incidents occur"] },
    mitigations := ["Adaptive management triggers linked to rainfall intensity thresholds",
        "Contingency spill kits and overflow prevention measures"],
    recommendations := ["Integrate mauri indicators in dashboard with traffic-light triggers",
        "Run post-event wānanga to agree remediation and learning"],
    triggers :=
      { metrics := ["Rainfall (mm/hr)",
            "NTU spikes",
            "Incident count"],
        baselines := "Event-based baseline using first-flush data",
        thresholds := [">20 mm/hr with NTU > baseline + 40%",
            "Any overflow"],
        actions := ["Suspend exposed works; stand-up response team; notify within 24h"],
        reporting := "Event summary within 5 days; quarterly trend analysis with mana whenua." },
    policyLinks := ["Te Ture Whaimana - maintaining and enhancing the mauri of the Waikato River",
        "Tai Tumu, Tai Pari, Tai Ao EMP - Mauri"],
    consentClauses := ["Adopt an Adaptive Management Plan with rainfall-linked triggers and defined corrective actions; co-develop with mana whenua and submit prior to works."] },
  { category := "wairua",
    issue := "Loss of sense of place at wāhi tūpuna vista and culturally sensitive viewshafts",
    effects :=
      { cultural := ["Erosion of identity where viewshafts are compromised"],
        social := ["Reduced pride and connection to place"],
        environmental := ["Visual amenity effects; vegetation structure changes"],
        spiritual := ["Disruption to wairua associated with the site"] },
    mitigations := ["Cultural design review panel with mana whenua; protect key sightlines"],
    recommendations := ["Develop a viewshaft protection plan and culturally anchored design palette"],
    triggers :=
      { metrics := ["Design gate approvals",
            "Non-conformance count"],
        baselines := "Pre-works photo-simulations agreed with mana whenua",
        thresholds := ["Any deviation from agreed sightline envelope"],
        actions := ["Iterate design to restore sightlines; additional planting/screening"],
        reporting := "Design review minutes; pre/post photo-comparisons filed with CIA updates." },
    policyLinks := ["Tai Tumu, Tai Pari, Tai Ao EMP - Wairua and landscapes",
        "District Plan - Landscape/amenity objectives and policies"],
    consentClauses := ["Establish a Cultural Design Review Panel with decision checkpoints at concept, developed, and pre-construction stages; implement agreed viewshaft protection measures."] }]

-- -------------------------------------------------------------------
-- Narrative builders (App.tsx lines 379-420).  The source functions close
-- over the component state `projectName`, `inferredICMP` and `council`;
-- those appear here as explicit parameters.

/-- The fixed section list of the mana whenua narrative (App.tsx 380-388). -/
def manaWhenuaSections : List String :=
  ["Executive Summary",
   "Background and Whakapapa",
   "Methodology (Kaupapa Māori, Wānanga)",
   "Categories Assessment",
   "ICMP and Policy Alignment",
   "Cultural Monitoring Programme",
   "Consent Conditions and Next Steps"]

/-- The per-finding category blocks of the mana whenua narrative
(App.tsx 391-395). -/
def catsBlock (findings : List Finding) : String :=
  joinSep "\n" <| findings.enum.map fun p =>
    "\n### " ++ toString (p.1 + 1) ++ ". " ++ strUpper p.2.category ++
    "\n**Ngā take / Issue:** " ++ p.2.issue ++
    "\n\n**Ngā whakatika / Mitigations:**\n- " ++
    joinSep "\n- " p.2.mitigations ++
    "\n\n**Ngā tūtohunga / Recommendations:**\n- " ++
    joinSep "\n- " p.2.recommendations ++
    "\n\n**Monitoring triggers (plain):** " ++
    joinSep ", " p.2.triggers.metrics ++ "\n"

/-- The `intro` block of the mana whenua narrative (App.tsx line 389). -/
def manaWhenuaIntro (projectName : String) : String :=
  "# CIA - Mana Whenua Narrative (Standard)\n\n## Project\n" ++ projectName ++
  "\n\n## Whakatauākī / Context\nKo te mana o te awa me te whenua te tūāpapa. This kaupapa recognises our relationship to wai, whenua, and all living systems. We have assessed the technical reports and translated key matters into plain language for whānau."

/-- The `align` block of the mana whenua narrative (App.tsx line 397). -/
def manaWhenuaAlign (inferredICMP : String) : String :=
  "\n## Te Ture Whaimana and Tai Tumu, Tai Pari, Tai Ao alignment\nWe checked the mahi against the Vision and Objectives of Te Ture Whaimana, the Waikato-Tainui EMP (Tai Tumu, Tai Pari, Tai Ao), and the relevant District Plan. The project is connected to: **" ++
  inferredICMP ++ "**."

/-- The `outro` block of the mana whenua narrative (App.tsx line 399). -/
def manaWhenuaOutro : String :=
  "\n## Tikanga and Participation\n- Mana whenua monitors present at ground-break.\n- Wānanga-a-rohe, quarterly, to review monitoring and adapt.\n- Cultural discovery protocol: stop-work, karakia, kōrero, record.\n\n## Ask to Council / Developer\nAdopt the consent conditions listed and fund the co-governed monitoring programme. Partner early on planting design and mahinga kai."

/-- Model of `buildStandardManaWhenua` (App.tsx lines 379-402), the
community-voice renderer. -/
def buildStandardManaWhenua (projectName inferredICMP : String)
    (findings : List Finding) : String :=
  joinSep "\n\n"
    [manaWhenuaIntro projectName,
     "\n## Sections\n- " ++ joinSep "\n- " manaWhenuaSections,
     "\n## Categories - Issues, Mitigations, Recommendations\n" ++ catsBlock findings,
     manaWhenuaAlign inferredICMP,
     manaWhenuaOutro]

/-- The assessment-scope paragraph of the council narrative (App.tsx
lines 405-409), branching on the council variant. -/
def buildStandardCouncilScope (council inferredICMP : String) : String :=
  "## Assessment Scope\n- Technical reports reviewed: EMPs, CMPs, ESCPs, ecology/archaeology/hydrology.\n- Policy instruments: Te Ture Whaimana; Tai Tumu, Tai Pari, Tai Ao EMP; " ++
  (if council = "Hamilton City Council" then
     "He Pou Manawa Ora; Hamilton District Plan"
   else
     "Waikato District Plan") ++
  ".\n- ICMP area: **" ++ inferredICMP ++ "**."

/-- The `matrix` block of the council narrative (App.tsx 411-415). -/
def councilMatrix (findings : List Finding) : String :=
  joinSep "\n\n" <| findings.enum.map fun p =>
    toString (p.1 + 1) ++ ". " ++ p.2.category ++ " | " ++ p.2.issue ++
    "\n   - Mitigation: " ++ joinSep "; " p.2.mitigations ++
    "\n   - Recommendation: " ++ joinSep "; " p.2.recommendations ++
    "\n   - Policy: " ++ joinSep "; " p.2.policyLinks

/-- The `conditions` block of the council narrative (App.tsx 417). -/
def councilConditions (findings : List Finding) : String :=
  joinSep "\n" <|
    ((findings.map Finding.consentClauses).flatten).enum.map fun p =>
      toString (p.1 + 1) ++ ". " ++ p.2

/-- Model of `buildStandardCouncil` (App.tsx lines 404-420), the
technical-voice renderer. -/
def buildStandardCouncil (council projectName inferredICMP : String)
    (findings : List Finding) : String :=
  "# CIA - Council/Developer Narrative (Standard)\n\n## Project\n" ++ projectName ++
  "\n\n" ++ buildStandardCouncilScope council inferredICMP ++
  "\n\n## Category Matrix (Issues -> Mitigation -> Recommendation -> Policy Link)\n" ++
  councilMatrix findings ++
  "\n\n## Proposed Consent Conditions (extract)\n" ++ councilConditions findings ++
  "\n\n## Monitoring and Adaptive Management\n- Baseline: clarity/NTU, macroinvertebrates, mahinga kai presence.\n- Triggers: set per-site with mana whenua; actions within 10 working days.\n- Reporting: quarterly hui plus written report for Council and mana whenua."

-- -------------------------------------------------------------------
-- Monitoring plan deriver (App.tsx lines 428-465)

/-- `MonitoringRow` (App.tsx line 428). -/
structure MonitoringRow where
  phase : String
  focus : String
  role : String
  frequency : String
deriving DecidableEq

/-- `baseMonitoringPlanRows` (App.tsx lines 430-435). -/
def baseMonitoringPlanRows : List MonitoringRow :=
  [{ phase := "Pre-construction",
     focus := "Baseline mauri / mudfish / habitat surveys",
     role := "Attend site walkover; confirm wāhi tapu avoidance; record baseline (photos/notes)",
     frequency := "One-off" },
   { phase := "During earthworks",
     focus := "Sediment discharge (NTU/TSS), discovery protocol readiness",
     role := "Onsite checks; hold stop-work if tikanga/cultural risk; verify ESCP field controls",
     frequency := "Daily / storm-event" },
   { phase := "Ecology",
     focus := "Mudfish / fish passage; planting survival",
     role := "Guide methods using tikanga; co-observe with ecologist; confirm safe handling/release",
     frequency := "Monthly / seasonal" },
   { phase := "Close-out",
     focus := "Verify consent conditions delivered; cultural outcomes",
     role := "Final site check; sign-off report to Council and mana whenua",
     frequency := "One-off" }]

/-- The species keyword regex `/mudfish|īnanga/` (App.tsx line 440). -/
def mudfishPattern : List (List Tok) :=
  [lits "mudfish", lits "īnanga"]

/-- The row spliced in at index 1 when the species scan fires
(App.tsx lines 442-447). -/
def speciesMonitoringRow : MonitoringRow :=
  { phase := "Pre-construction",
    focus := "Targeted mudfish presence/absence at drains/wetlands",
    role := "Assist ecologist; apply tikanga for handling; confirm relocation plan if needed",
    frequency := "One-off" }

/-- The Hamilton-variant appended row (App.tsx lines 450-455). -/
def hpmoCheckpointRow (includeHPMOFlag : Bool) : MonitoringRow :=
  { phase := "During earthworks",
    focus := "He Pou Manawa Ora engagement checkpoint",
    role := "Attend engagement checkpoint; confirm cultural measures are active",
    frequency := if includeHPMOFlag then "At each stage-gate" else "(disabled)" }

/-- The Waikato-variant appended row (App.tsx lines 457-462). -/
def wdcNoiseRow : MonitoringRow :=
  { phase := "During earthworks",
    focus := "Waikato District Plan noise/access checks near marae",
    role := "Check access windows and noise limits with whānau",
    frequency := "Weekly" }

/-- Model of `deriveMonitoringRows` (App.tsx lines 437-465). -/
def deriveMonitoringRows (findings : List Finding) (councilName : String)
    (includeHPMOFlag : Bool) : List MonitoringRow :=
  let rows := baseMonitoringPlanRows
  let text :=
    joinSep " " <| findings.map fun f =>
      strLower (f.issue ++ " " ++ joinSep " " f.recommendations)
  let hasMudfish := regexTest mudfishPattern text.data
  let rows :=
    if hasMudfish &&
        !(rows.any fun r => containsB "mudfish".data (strLower r.focus).data) then
      rows.take 1 ++ [speciesMonitoringRow] ++ rows.drop 1
    else rows
  if councilName = "Hamilton City Council" then
    rows ++ [hpmoCheckpointRow includeHPMOFlag]
  else
    rows ++ [wdcNoiseRow]

-- -------------------------------------------------------------------
-- Self-check marker assertion (App.tsx line 582)

/-- The community-voice marker assertion of `runSelfChecks`: the source
regex literal is written with double backslashes, so it denotes the
literal fourteen-character text `Whakatau` followed by `\\u0101k\\u012B`
(backslashes included), not the macron characters themselves. -/
def unicodeMarkerCheck (mw : String) : Bool :=
  regexTest [lits "Whakatau\\u0101k\\u012B"] mw.data

-- -------------------------------------------------------------------
-- Document exporter (App.tsx lines 469-566)

/-- The base64 alphabet accepted by `atob`. -/
def b64Alphabet : List Char :=
  "ABCDEFGHIJKLMNOPQRSTUVWXYZabcdefghijklmnopqrstuvwxyz0123456789+/".data

/-- Index of a character in a list, if present. -/
def indexIn (c : Char) : List Char → Option Nat
  | [] => none
  | d :: rest => if d = c then some 0 else (indexIn c rest).map (· + 1)

/-- Sextet value of one base64 character. -/
def b64Index (c : Char) : Option Nat :=
  indexIn c b64Alphabet

/-- Reassemble 6-bit groups into bytes (a trailing group of two or three
characters yields one or two bytes). -/
def sextetsToBytes : List Nat → List Nat
  | a :: b :: c :: d :: rest =>
      (a * 4 + b / 16) :: ((b % 16) * 16 + c / 4) :: ((c % 4) * 64 + d) ::
        sextetsToBytes rest
  | [a, b] => [a * 4 + b / 16]
  | [a, b, c] => [a * 4 + b / 16, (b % 16) * 16 + c / 4]
  | _ => []

/-- Strip up to two trailing `=` padding characters. -/
def dropPadding (l : List Char) : List Char :=
  match l.reverse with
  | '=' :: '=' :: rest => rest.reverse
  | '=' :: rest => rest.reverse
  | _ => l

/-- Decode every character to its sextet value, failing on the first
character outside the alphabet. -/
def decodeSextets : List Char → Option (List Nat)
  | [] => some []
  | c :: rest =>
      match b64Index c with
      | none => none
      | some v =>
          match decodeSextets rest with
          | none => none
          | some vs => some (v :: vs)

/-- Model of the platform `atob` (WHATWG forgiving-base64 decode): strip
ASCII whitespace, allow canonical `=` padding, fail (`none`) on any other
character outside the alphabet or on a remainder length of 1; on success
return the decoded bytes (the char codes of `atob`'s latin-1 result). -/
def atobModel (input : String) : Option (List Nat) :=
  let ws := input.data.filter fun c =>
    !(c = ' ' || c = '\t' || c = '\n' || c = '\r' || c.toNat = 12)
  let body := if ws.length % 4 = 0 then dropPadding ws else ws
  if body.length % 4 = 1 then none
  else
    match decodeSextets body with
    | none => none
    | some sextets => some (sextetsToBytes sextets)

/-- A figure handed to the narrative exporter (caption + data URL). -/
structure Figure where
  caption : String
  dataUrl : String
deriving DecidableEq

/-- Abstract blocks of the produced DOCX container. -/
inductive DocxBlock where
  | title (text : String)
  | heading2 (text : String)
  | heading3 (text : String)
  | para (text : String)
  | image (bytes : List Nat) (width height : Nat)
  | table (header : List String) (rows : List (List String))
deriving DecidableEq

/-- A completed export: deterministic filename plus packaged bytes. -/
structure NamedArtifact where
  filename : String
  content : List Nat
deriving DecidableEq

/-- `title.replace(/\s+/g, "_")`: each maximal whitespace run becomes one
underscore (a whitespace character followed by more whitespace is dropped,
the last of a run becomes the underscore). -/
def replaceWsRuns : List Char → List Char
  | [] => []
  | c :: rest =>
      if isSpaceChar c then
        match rest with
        | [] => ['_']
        | d :: rest2 =>
            if isSpaceChar d then replaceWsRuns (d :: rest2)
            else '_' :: replaceWsRuns (d :: rest2)
      else c :: replaceWsRuns rest

/-- Split a character list at every comma (JS `split(",")`). -/
def splitCommaAux (acc : List Char) : List Char → List (List Char)
  | [] => [acc.reverse]
  | c :: rest =>
      if c = ',' then acc.reverse :: splitCommaAux [] rest
      else splitCommaAux (c :: acc) rest

/-- The base64 payload of a figure's data URL:
`f.dataUrl.split(",")[1] || ""`. -/
def figPayload (f : Figure) : String :=
  ⟨((splitCommaAux [] f.dataUrl.data)[1]?).getD []⟩

/-- The block list `exportNarrativeDocx` hands to the packaging step:
title, one paragraph per body line, the figures heading, then each
figure's caption and decoded image at fixed 360x240 display size. -/
def narrativeBlocks (title body : String)
    (figureBlocks : List (List DocxBlock)) : List DocxBlock :=
  [DocxBlock.title title] ++ (body.splitOn "\n").map DocxBlock.para ++
    [DocxBlock.heading2 "Selected Figures (Inline)"] ++ figureBlocks.flatten

/-- One figure's contribution (App.tsx lines 531-538): decode the base64
payload, then emit the caption heading and the image block at the fixed
360x240 display size; decoding failure fails the whole export. -/
def figureBlock (f : Figure) : Option (List DocxBlock) :=
  match atobModel (figPayload f) with
  | none => none
  | some bytes => some [DocxBlock.heading3 f.caption, DocxBlock.image bytes 360 240]

/-- The figure blocks of `figures.map(...)`, where a throw in any
iteration aborts the whole map. -/
def mapFigures : List Figure → Option (List (List DocxBlock))
  | [] => some []
  | f :: rest =>
      match figureBlock f with
      | none => none
      | some b =>
          match mapFigures rest with
          | none => none
          | some bs => some (b :: bs)

/-- Model of `exportNarrativeDocx` (App.tsx lines 529-566).  The binary
packaging step (`Packer.toBlob` of the external docx library) is the
abstract `packer` parameter; the delivered download of a successful blob
is the returned artifact.  Decoding every image payload happens before
packaging, packaging before delivery, and the enclosing try/catch turns
any failure into a reported error with no artifact (`none`). -/
def exportNarrativeDocx (packer : List DocxBlock → Option (List Nat))
    (title body : String) (figures : List Figure) : Option NamedArtifact :=
  match mapFigures figures with
  | none => none
  | some figureBlocks =>
      match packer (narrativeBlocks title body figureBlocks) with
      | none => none
      | some blob =>
          some { filename := (⟨replaceWsRuns title.data⟩ : String) ++ ".docx",
                 content := blob }

/-- The block list `exportMonitoringDocx` hands to the packaging step
(App.tsx lines 471-512): title, project line, the monitoring table with
its fixed header row and one row per `MonitoringRow`, then the fixed job
description paragraphs. -/
def monitoringBlocks (project : String) (rows : List MonitoringRow) :
    List DocxBlock :=
  [DocxBlock.title "Cultural Monitoring Programme",
   DocxBlock.para ("Project: " ++ project),
   DocxBlock.heading2 "Timeline & Tasks",
   DocxBlock.table ["Phase", "Monitoring focus", "Role of Cultural Monitor", "Frequency"]
     (rows.map fun r => [r.phase, r.focus, r.role, r.frequency]),
   DocxBlock.heading2 "Job Description",
   DocxBlock.para "• Represent mana whenua onsite and act as kaitiaki of wāhi tapu, wai and whenua.",
   DocxBlock.para "• Hold stop-work authority when tikanga or cultural risk is observed.",
   DocxBlock.para "• Record observations (photos + narrative) into the CIA dashboard.",
   DocxBlock.para "• Attend toolbox talks and ensure contractors understand cultural protocols.",
   DocxBlock.para "• Escalate incident triggers to Project Manager and Council."]

/-- Model of `exportMonitoringDocx` (App.tsx lines 469-527), with the
packaging step abstracted exactly as in `exportNarrativeDocx`. -/
def exportMonitoringDocx (packer : List DocxBlock → Option (List Nat))
    (project : String) (rows : List MonitoringRow) : Option NamedArtifact :=
  match packer (monitoringBlocks project rows) with
  | none => none
  | some blob =>
      some { filename :=
               "Cultural_Monitoring_Programme_" ++
                 (⟨replaceWsRuns project.data⟩ : String) ++ ".docx",
             content := blob }

/-- A plain-equivalent substitution on characters: macron vowels become
their unmarked base letter, every other character is unchanged (the
substitution quantified over in the diacritic-insensitivity claim for the
species scan). -/
def plainChar (c : Char) : Char :=
  if c = 'Ā' then 'A' else if c = 'ā' then 'a'
  else if c = 'Ē' then 'E' else if c = 'ē' then 'e'
  else if c = 'Ī' then 'I' else if c = 'ī' then 'i'
  else if c = 'Ō' then 'O' else if c = 'ō' then 'o'
  else if c = 'Ū' then 'U' else if c = 'ū' then 'u' else c

/-- `plainChar` over a string. -/
def plainStr (s : String) : String := ⟨s.data.map plainChar⟩

/-- A finding with the diacritic-marked characters of its issue and
recommendation fields replaced by their plain equivalents. -/
def plainFinding (f : Finding) : Finding :=
  { f with issue := plainStr f.issue,
           recommendations := f.recommendations.map plainStr }

/-- The data URL of the placeholder gallery figures (App.tsx line 79):
a tiny transparent PNG. -/
def placeholderDataUrl : String :=
  "data:image/png;base64,iVBORw0KGgoAAAANSUhEUgAAAAoAAAAKCAYAAACNMs+9AAAAFElEQVQYV2NkYGBgYGBg+M9ABQAKCAIBz1b5AwAAAABJRU5ErkJggg=="

/-- A gallery figure with the placeholder payload (App.tsx lines 74-81). -/
def sampleFigure : Figure :=
  { caption := "Figure 1: Placeholder diagram/map", dataUrl := placeholderDataUrl }

/-- A figure whose payload is not valid base64, so decoding it fails. -/
def badFigure : Figure :=
  { caption := "Figure X", dataUrl := "data:image/png;base64,@@" }

-- -------------------------------------------------------------------
-- Helper lemmas

set_option maxRecDepth 8000

/-- A successful association-list lookup pinpoints a member pair. -/
theorem lookup_mem {α β : Type} [BEq α] [LawfulBEq α] :
    ∀ (l : List (α × β)) (a : α) (b : β), List.lookup a l = some b → (a, b) ∈ l := by
  intro l
  induction l with
  | nil => intro a b h; simp [List.lookup] at h
  | cons p rest ih =>
      intro a b h
      obtain ⟨k, v⟩ := p
      simp only [List.lookup] at h
      cases hak : a == k with
      | true =>
          rw [hak] at h
          simp only [Option.some.injEq] at h
          subst h
          exact (eq_of_beq hak) ▸ List.mem_cons_self _ _
      | false =>
          rw [hak] at h
          exact List.mem_cons_of_mem _ (ih a b h)

/-- Every character produced by `normChar` is a fixed point of `normChar`. -/
theorem normChar_fix {c d : Char} (hd : d ∈ normChar c) : normChar d = [d] := by
  unfold normChar at hd
  cases htab : List.lookup c normTable with
  | some out =>
      rw [htab] at hd
      have hmem := lookup_mem normTable c out htab
      have key : ∀ p ∈ normTable, ∀ e ∈ p.2,
          normChar e = [e] := by decide
      exact key _ hmem d hd
  | none =>
      rw [htab] at hd
      by_cases hcm : isCombiningMark c = true
      · simp [hcm] at hd
      · rw [if_neg hcm, List.mem_singleton] at hd
        subst hd
        unfold normChar
        rw [htab, if_neg hcm]

/-- `normList` distributes over append. -/
theorem normList_append (l₁ l₂ : List Char) :
    normList (l₁ ++ l₂) = normList l₁ ++ normList l₂ := by
  induction l₁ with
  | nil => rfl
  | cons c rest ih => simp [normList, ih]

/-- `normList` fixes any list of `normChar`-fixed characters. -/
theorem normList_fixed : ∀ m : List Char, (∀ d ∈ m, normChar d = [d]) → normList m = m := by
  intro m
  induction m with
  | nil => intro _; rfl
  | cons d rest ih =>
      intro h
      have hd : normChar d = [d] := h d (List.mem_cons_self _ _)
      have hrest := ih fun e he => h e (List.mem_cons_of_mem _ he)
      simp [normList, hd, hrest]

/-- Character-level normalization is idempotent. -/
theorem normList_idem (l : List Char) : normList (normList l) = normList l := by
  induction l with
  | nil => rfl
  | cons c rest ih =>
      have hc : normList (normChar c) = normChar c :=
        normList_fixed _ fun d hd => normChar_fix hd
      simp [normList, normList_append, hc, ih]

/-- Claim C7: the Text Normalizer is idempotent — for every input string
(including the empty string and, through the `input || ""` coalescing, an
undefined input), `normalize(normalize(x)) = normalize(x)`. -/
theorem claim_C7_normalizer_idempotent :
    (∀ x : String, normalizeForMatch (normalizeForMatch x) = normalizeForMatch x) ∧
    normalizeForMatch "" = "" ∧
    (∀ x : Option String,
      normalizeForMatch (normalizeForMatchOpt x) = normalizeForMatchOpt x) := by
  have key : ∀ x : String, normalizeForMatch (normalizeForMatch x) = normalizeForMatch x :=
    fun x => congrArg String.mk (normList_idem x.data)
  exact ⟨key, rfl, fun x => key (x.getD "")⟩

/-- A base monitoring row already has "mudfish" in its focus, so the
species-row guard `!rows.find(...)` is never satisfied. -/
theorem base_rows_cover_mudfish :
    (baseMonitoringPlanRows.any fun r =>
      containsB "mudfish".data (strLower r.focus).data) = true := by decide

/-- The deriver always returns the four base rows plus exactly the one
council-dependent appended row: the species-row splice never fires,
because the first base row's focus already contains "mudfish". -/
theorem deriveMonitoringRows_eq (f : List Finding) (c : String) (t : Bool) :
    deriveMonitoringRows f c t =
      baseMonitoringPlanRows ++
        [if c = "Hamilton City Council" then hpmoCheckpointRow t else wdcNoiseRow] := by
  unfold deriveMonitoringRows
  simp only [base_rows_cover_mudfish, Bool.not_true, Bool.and_false,
    Bool.false_eq_true, if_false]
  split <;> rfl

/-- The species row differs from every row the deriver can produce. -/
theorem species_row_not_mem (f : List Finding) (c : String) (t : Bool) :
    speciesMonitoringRow ∉ deriveMonitoringRows f c t := by
  intro hmem
  rw [deriveMonitoringRows_eq, List.mem_append] at hmem
  by_cases hc : c = "Hamilton City Council"
  · rw [if_pos hc] at hmem
    rcases hmem with h | h
    · exact absurd h (by decide)
    · rw [List.mem_singleton] at h
      have hfocus := congrArg MonitoringRow.focus h
      rw [show (hpmoCheckpointRow t).focus =
            "He Pou Manawa Ora engagement checkpoint" from rfl] at hfocus
      exact absurd hfocus (by decide)
  · rw [if_neg hc] at hmem
    rcases hmem with h | h
    · exact absurd h (by decide)
    · rw [List.mem_singleton] at h
      exact absurd (congrArg MonitoringRow.focus h) (by decide)

/-- Claim C3: for every findings list, council and toggle, the deriver
returns exactly 5 or 6 rows — the base rows, an optional species row and
exactly one council-dependent appended row — and whenever the species row
is present it sits at index 1. -/
theorem claim_C3_monitoring_row_count (f : List Finding) (c : String) (t : Bool) :
    ((deriveMonitoringRows f c t).length = 5 ∨
      (deriveMonitoringRows f c t).length = 6) ∧
    (speciesMonitoringRow ∉ deriveMonitoringRows f c t ∨
      (deriveMonitoringRows f c t)[1]? = some speciesMonitoringRow) := by
  constructor
  · left
    rw [deriveMonitoringRows_eq]
    simp [baseMonitoringPlanRows]
  · exact Or.inl (species_row_not_mem f c t)

/-- Claim C5: replacing diacritic-marked characters by their plain
equivalents in the issue and recommendation fields never changes whether
the species row is inserted — indeed it leaves the derived plan unchanged. -/
theorem claim_C5_species_scan_diacritics (f : List Finding) (c : String) (t : Bool) :
    (speciesMonitoringRow ∈ deriveMonitoringRows (f.map plainFinding) c t ↔
      speciesMonitoringRow ∈ deriveMonitoringRows f c t) ∧
    deriveMonitoringRows (f.map plainFinding) c t = deriveMonitoringRows f c t := by
  have h := deriveMonitoringRows_eq (f.map plainFinding) c t
  rw [h, deriveMonitoringRows_eq f c t]
  exact ⟨Iff.rfl, rfl⟩

/-- With an empty match list, `inferICMP` returns the council fallback. -/
theorem inferICMP_fallback_of_nil (loc c : String)
    (h : icmpMatchList loc c = []) :
    inferICMP loc c =
      if c = "Hamilton City Council" then "Hamilton City ICMP (area to confirm)"
      else "Waikato District ICMP (area to confirm)" := by
  simp only [icmpMatchList] at h
  simp only [inferICMP]
  by_cases hc : c = "Hamilton City Council"
  · rw [if_pos hc] at h
    simp only [if_pos hc]
    have hnone : HCC_ICMPS.find?
        (fun a => areaHits (normalizeForMatch loc).data a) = none :=
      List.find?_eq_none.mpr
        (List.filter_eq_nil_iff.mp (List.map_eq_nil_iff.mp h))
    rw [hnone]
  · rw [if_neg hc] at h
    simp only [if_neg hc]
    have hnone : WDC_ICMPS.find?
        (fun a => areaHits (normalizeForMatch loc).data a) = none :=
      List.find?_eq_none.mpr
        (List.filter_eq_nil_iff.mp (List.map_eq_nil_iff.mp h))
    rw [hnone]

/-- Claim C2: classification never fails — it always returns either a
dictionary region name or the council-specific fallback; with zero matches
it returns the fallback, in particular `classify("", Hamilton)` resolves to
the Hamilton fallback and the Waikato variant's fallback string. -/
theorem claim_C2_classifier_fallback :
    (∀ loc c : String,
      inferICMP loc c ∈
          ((if c = "Hamilton City Council" then HCC_ICMPS else WDC_ICMPS).map Area.name) ∨
        inferICMP loc c =
          (if c = "Hamilton City Council" then "Hamilton City ICMP (area to confirm)"
           else "Waikato District ICMP (area to confirm)")) ∧
    (∀ loc c : String, icmpMatchList loc c = [] →
      inferICMP loc c =
        (if c = "Hamilton City Council" then "Hamilton City ICMP (area to confirm)"
         else "Waikato District ICMP (area to confirm)")) ∧
    inferICMP "" "Hamilton City Council" = "Hamilton City ICMP (area to confirm)" ∧
    inferICMP "" "Waikato District Council" = "Waikato District ICMP (area to confirm)" := by
  refine ⟨fun loc c => ?_, inferICMP_fallback_of_nil, by decide, by decide⟩
  simp only [inferICMP]
  by_cases hc : c = "Hamilton City Council"
  · simp only [if_pos hc]
    cases hfind : HCC_ICMPS.find? (fun a => areaHits (normalizeForMatch loc).data a) with
    | some hit =>
        exact Or.inl (List.mem_map_of_mem Area.name (List.mem_of_find?_eq_some hfind))
    | none => exact Or.inr rfl
  · simp only [if_neg hc]
    cases hfind : WDC_ICMPS.find? (fun a => areaHits (normalizeForMatch loc).data a) with
    | some hit =>
        exact Or.inl (List.mem_map_of_mem Area.name (List.mem_of_find?_eq_some hfind))
    | none => exact Or.inr rfl

/-- Claim C8: the classifier canaries — "Rotokauri" resolves to
"Rotokauri ICMP" as the unique match (no pending disambiguation, the
auto-detect handler resolves without opening the chooser), and
"Beerescourt" yields the single resolved label "Waitawhiriwhiri ICMP". -/
theorem claim_C8_classifier_canaries :
    inferICMP "Rotokauri" "Hamilton City Council" = "Rotokauri ICMP" ∧
    inferICMPMatches "Rotokauri" "Hamilton City Council" = ["Rotokauri ICMP"] ∧
    (handleAutoDetectICMP "Rotokauri" "Hamilton City Council" initState).showIcmpModal = false ∧
    (handleAutoDetectICMP "Rotokauri" "Hamilton City Council" initState).inferredICMP = "Rotokauri ICMP" ∧
    inferICMP "Beerescourt" "Hamilton City Council" = "Waitawhiriwhiri ICMP" ∧
    inferICMPMatches "Beerescourt" "Hamilton City Council" = ["Waitawhiriwhiri ICMP"] := by
  decide

/-- With two or more matches, `inferICMPMatches` is the match list itself. -/
theorem inferICMPMatches_of_two (loc c : String)
    (h : 2 ≤ (icmpMatchList loc c).length) :
    inferICMPMatches loc c = icmpMatchList loc c := by
  unfold inferICMPMatches
  rw [if_neg]
  omega

/-- Claim C1: when two or more regions match, the auto-detect handler
surfaces a pending disambiguation — the chooser modal opens over the
matched region names in dictionary-declaration order (a sublist of the
declared dictionary), the tentative default is the first candidate, and
the previously resolved label is left untouched. -/
theorem claim_C1_pending_disambiguation (loc c : String) (s : UIState)
    (h : 2 ≤ (icmpMatchList loc c).length) :
    handleAutoDetectICMP loc c s =
      { s with icmpOptions := icmpMatchList loc c,
               icmpTemp := (icmpMatchList loc c).headD "(not set)",
               showIcmpModal := true } ∧
    (handleAutoDetectICMP loc c s).inferredICMP = s.inferredICMP ∧
    2 ≤ (handleAutoDetectICMP loc c s).icmpOptions.length ∧
    List.Sublist (handleAutoDetectICMP loc c s).icmpOptions
      ((if c = "Hamilton City Council" then HCC_ICMPS else WDC_ICMPS).map Area.name) ∧
    (handleAutoDetectICMP loc c s).icmpTemp =
      (handleAutoDetectICMP loc c s).icmpOptions.headD "(not set)" := by
  have hm : inferICMPMatches loc c = icmpMatchList loc c :=
    inferICMPMatches_of_two loc c h
  have hh : handleAutoDetectICMP loc c s =
      { s with icmpOptions := icmpMatchList loc c,
               icmpTemp := (icmpMatchList loc c).headD "(not set)",
               showIcmpModal := true } := by
    unfold handleAutoDetectICMP
    rw [hm, if_neg]
    omega
  refine ⟨hh, by rw [hh], by rw [hh]; exact h, ?_, by rw [hh]⟩
  rw [hh]
  show List.Sublist (icmpMatchList loc c) _
  simp only [icmpMatchList]
  exact (List.filter_sublist _).map Area.name

/-- Witness for claim C1: "pukete flagstaff" matches both the Te Rapa and
Rototuna dictionaries, and auto-detect surfaces the pending chooser. -/
theorem claim_C1_witness :
    2 ≤ (icmpMatchList "pukete flagstaff" "Hamilton City Council").length ∧
    handleAutoDetectICMP "pukete flagstaff" "Hamilton City Council" initState =
      { initState with
          icmpOptions := icmpMatchList "pukete flagstaff" "Hamilton City Council",
          icmpTemp :=
            (icmpMatchList "pukete flagstaff" "Hamilton City Council").headD "(not set)",
          showIcmpModal := true } :=
  ⟨by decide,
   (claim_C1_pending_disambiguation "pukete flagstaff" "Hamilton City Council"
      initState (by decide)).1⟩

/-- Claim C10: every council-dependent branch compares for exact equality
with "Hamilton City Council", so any other council value — misspellings
included — behaves exactly like "Waikato District Council": Waikato
dictionary and fallback, Waikato policy phrase, and the fixed weekly
access/noise appended row. -/
theorem claim_C10_council_branch_default (c : String)
    (hc : c ≠ "Hamilton City Council") :
    (∀ loc, inferICMP loc c = inferICMP loc "Waikato District Council") ∧
    (∀ loc, inferICMPMatches loc c = inferICMPMatches loc "Waikato District Council") ∧
    (∀ loc, icmpMatchList loc c = [] →
      inferICMP loc c = "Waikato District ICMP (area to confirm)") ∧
    (∀ icmp, buildStandardCouncilScope c icmp =
      buildStandardCouncilScope "Waikato District Council" icmp) ∧
    (∀ f t, deriveMonitoringRows f c t =
      deriveMonitoringRows f "Waikato District Council" t) ∧
    (∀ f t, (deriveMonitoringRows f c t).getLast? = some wdcNoiseRow) := by
  have hw : ("Waikato District Council" : String) ≠ "Hamilton City Council" := by decide
  refine ⟨fun loc => ?_, fun loc => ?_, fun loc h => ?_, fun icmp => ?_,
    fun f t => ?_, fun f t => ?_⟩
  · simp only [inferICMP, if_neg hc, if_neg hw]
  · simp only [inferICMPMatches, icmpMatchList, if_neg hc, if_neg hw]
  · rw [inferICMP_fallback_of_nil loc c h, if_neg hc]
  · simp only [buildStandardCouncilScope, if_neg hc, if_neg hw]
  · rw [deriveMonitoringRows_eq, deriveMonitoringRows_eq, if_neg hc, if_neg hw]
  · rw [deriveMonitoringRows_eq, if_neg hc]
    exact List.getLast?_concat _

/-- Witness for claim C10: the lowercase misspelling "hamilton city
council" is treated as the Waikato variant. -/
theorem claim_C10_witness :
    ("hamilton city council" : String) ≠ "Hamilton City Council" ∧
    inferICMP "Huntly" "hamilton city council" =
      inferICMP "Huntly" "Waikato District Council" :=
  ⟨by decide,
   (claim_C10_council_branch_default "hamilton city council" (by decide)).1 "Huntly"⟩

/-- The Hamilton policy phrase sits inside the Hamilton scope paragraph. -/
theorem phrase_infix_scope_H (icmp : String) :
    List.IsInfix "He Pou Manawa Ora; Hamilton District Plan".data
      (buildStandardCouncilScope "Hamilton City Council" icmp).data :=
  ⟨("## Assessment Scope\n- Technical reports reviewed: EMPs, CMPs, ESCPs, ecology/archaeology/hydrology.\n- Policy instruments: Te Ture Whaimana; Tai Tumu, Tai Pari, Tai Ao EMP; ").data,
   (".\n- ICMP area: **" ++ icmp ++ "**.").data,
   by simp [buildStandardCouncilScope, String.data_append, List.append_assoc]⟩

/-- The Waikato policy phrase sits inside every non-Hamilton scope
paragraph. -/
theorem phrase_infix_scope_W (c icmp : String)
    (hc : c ≠ "Hamilton City Council") :
    List.IsInfix "Waikato District Plan".data
      (buildStandardCouncilScope c icmp).data :=
  ⟨("## Assessment Scope\n- Technical reports reviewed: EMPs, CMPs, ESCPs, ecology/archaeology/hydrology.\n- Policy instruments: Te Ture Whaimana; Tai Tumu, Tai Pari, Tai Ao EMP; ").data,
   (".\n- ICMP area: **" ++ icmp ++ "**.").data,
   by simp [buildStandardCouncilScope, String.data_append, if_neg hc,
        List.append_assoc]⟩

/-- The scope paragraph is an infix of the rendered council document. -/
theorem scope_infix_doc (c pn icmp : String) (f : List Finding) :
    List.IsInfix (buildStandardCouncilScope c icmp).data
      (buildStandardCouncil c pn icmp f).data :=
  ⟨("# CIA - Council/Developer Narrative (Standard)\n\n## Project\n" ++ pn ++ "\n\n").data,
   ("\n\n## Category Matrix (Issues -> Mitigation -> Recommendation -> Policy Link)\n" ++
      councilMatrix f ++ "\n\n## Proposed Consent Conditions (extract)\n" ++
      councilConditions f ++
      "\n\n## Monitoring and Adaptive Management\n- Baseline: clarity/NTU, macroinvertebrates, mahinga kai presence.\n- Triggers: set per-site with mana whenua; actions within 10 working days.\n- Reporting: quarterly hui plus written report for Council and mana whenua.").data,
   by simp [buildStandardCouncil, String.data_append, List.append_assoc]⟩

/-- Claim C9: the technical-voice renderer's assessment-scope paragraph
carries the policy-instrument phrase of the council variant — the
Hamilton phrase for "Hamilton City Council", "Waikato District Plan" for
every other council — both in the scope paragraph itself and in the full
rendered document, so switching the council switches the phrase. -/
theorem claim_C9_policy_phrase (pn icmp : String) (f : List Finding) :
    List.IsInfix "He Pou Manawa Ora; Hamilton District Plan".data
      (buildStandardCouncilScope "Hamilton City Council" icmp).data ∧
    (∀ c, c ≠ "Hamilton City Council" →
      List.IsInfix "Waikato District Plan".data
        (buildStandardCouncilScope c icmp).data) ∧
    List.IsInfix "Waikato District Plan".data
      (buildStandardCouncilScope "Waikato District Council" icmp).data ∧
    List.IsInfix "He Pou Manawa Ora; Hamilton District Plan".data
      (buildStandardCouncil "Hamilton City Council" pn icmp f).data ∧
    (∀ c, c ≠ "Hamilton City Council" →
      List.IsInfix "Waikato District Plan".data
        (buildStandardCouncil c pn icmp f).data) :=
  ⟨phrase_infix_scope_H icmp,
   fun c hc => phrase_infix_scope_W c icmp hc,
   phrase_infix_scope_W "Waikato District Council" icmp (by decide),
   (phrase_infix_scope_H icmp).trans
     (scope_infix_doc "Hamilton City Council" pn icmp f),
   fun c hc =>
     (phrase_infix_scope_W c icmp hc).trans (scope_infix_doc c pn icmp f)⟩

/-- `mapFigures` fails whenever one figure's payload fails to decode. -/
theorem mapFigures_eq_none :
    ∀ figures : List Figure,
      (∃ f ∈ figures, atobModel (figPayload f) = none) →
        mapFigures figures = none := by
  intro figures
  induction figures with
  | nil => rintro ⟨f, hf, _⟩; cases hf
  | cons a rest ih =>
      rintro ⟨f, hf, hfail⟩
      rcases List.mem_cons.mp hf with rfl | hmem
      · unfold mapFigures figureBlock
        rw [hfail]
      · unfold mapFigures
        cases hfb : figureBlock a with
        | none => rfl
        | some b => rw [ih ⟨f, hmem, hfail⟩]

/-- Claim C4: every export call is all-or-nothing.  If any figure payload
fails to decode the narrative export fails with no output; a successful
narrative export is the complete packaged document over the full block
list with the deterministic title-derived filename; a successful
monitoring export likewise packages the complete table document; and
concretely, exporting with an undecodable payload yields nothing while
the gallery's placeholder figure exports fully. -/
theorem claim_C4_export_atomicity
    (packer : List DocxBlock → Option (List Nat))
    (title body : String) (figures : List Figure)
    (project : String) (rows : List MonitoringRow) :
    ((∃ f ∈ figures, atobModel (figPayload f) = none) →
      exportNarrativeDocx packer title body figures = none) ∧
    (∀ a, exportNarrativeDocx packer title body figures = some a →
      ∃ fbs, mapFigures figures = some fbs ∧
        packer (narrativeBlocks title body fbs) = some a.content ∧
        a.filename = (⟨replaceWsRuns title.data⟩ : String) ++ ".docx") ∧
    (∀ a, exportMonitoringDocx packer project rows = some a →
      packer (monitoringBlocks project rows) = some a.content ∧
      a.filename =
        "Cultural_Monitoring_Programme_" ++
          (⟨replaceWsRuns project.data⟩ : String) ++ ".docx") ∧
    exportNarrativeDocx (fun _ => some []) "CIA Mana Whenua" body [badFigure] = none ∧
    (exportNarrativeDocx (fun bs => some [bs.length]) "CIA Mana Whenua" "b"
        [sampleFigure]).isSome = true := by
  refine ⟨fun hex => ?_, fun a ha => ?_, fun a ha => ?_, ?_, by decide⟩
  · unfold exportNarrativeDocx
    rw [mapFigures_eq_none figures hex]
  · unfold exportNarrativeDocx at ha
    cases hmb : mapFigures figures with
    | none => rw [hmb] at ha; cases ha
    | some fbs =>
        rw [hmb] at ha
        have ha2 : (match packer (narrativeBlocks title body fbs) with
            | none => none
            | some blob =>
                some { filename := (⟨replaceWsRuns title.data⟩ : String) ++ ".docx",
                       content := blob } : Option NamedArtifact) = some a := ha
        cases hp : packer (narrativeBlocks title body fbs) with
        | none => rw [hp] at ha2; cases ha2
        | some blob =>
            rw [hp] at ha2
            cases ha2
            exact ⟨fbs, rfl, hp, rfl⟩
  · unfold exportMonitoringDocx at ha
    cases hp : packer (monitoringBlocks project rows) with
    | none => rw [hp] at ha; cases ha
    | some blob =>
        rw [hp] at ha
        cases ha
        exact ⟨rfl, rfl⟩
  · unfold exportNarrativeDocx
    rw [mapFigures_eq_none [badFigure]
      ⟨badFigure, List.mem_singleton.mpr rfl, by decide⟩]

/-- A literal-only token list only ever consumes its own characters from
the string it matches. -/
theorem matchToks_lit_mem :
    ∀ (w : List Char) (prev : Option Char) (s : List Char),
      matchToks (w.map Tok.lit) prev s = true → ∀ c ∈ w, c ∈ s := by
  intro w
  induction w with
  | nil => intro prev s _ c hc; cases hc
  | cons a rest ih =>
      intro prev s h c hc
      cases s with
      | nil => cases h
      | cons d s2 =>
          rw [List.map_cons] at h
          have h2 := (Bool.and_eq_true _ _).mp h
          have hda : d = a := by
            have := h2.1; exact of_decide_eq_true this
          rcases List.mem_cons.mp hc with rfl | hmem
          · exact List.mem_cons.mpr (Or.inl hda.symm)
          · exact List.mem_cons_of_mem _ (ih (some d) s2 h2.2 c hmem)

/-- Searching a literal-only pattern anywhere in a string still only
consumes characters of that string. -/
theorem searchFrom_lit_mem :
    ∀ (s : List Char) (w : List Char) (prev : Option Char),
      searchFrom (w.map Tok.lit) prev s = true → ∀ c ∈ w, c ∈ s := by
  intro s
  induction s with
  | nil => intro w prev h c hc; exact matchToks_lit_mem w prev [] h c hc
  | cons d s2 ih =>
      intro w prev h c hc
      rcases (Bool.or_eq_true _ _).mp h with h1 | h1
      · exact matchToks_lit_mem w prev (d :: s2) h1 c hc
      · exact List.mem_cons_of_mem _ (ih w (some d) h1 c hc)

/-- If the marker assertion accepts a document, the document contains a
literal backslash: the source regex `/Whakatau\\u0101k\\u012B/` is
double-escaped, so it looks for backslash-u text, not macron characters. -/
theorem unicodeMarkerCheck_mem (mw : String)
    (h : unicodeMarkerCheck mw = true) : '\\' ∈ mw.data := by
  unfold unicodeMarkerCheck regexTest at h
  rw [List.any_cons, List.any_nil, Bool.or_false] at h
  exact searchFrom_lit_mem mw.data _ none h '\\' (by decide)

/-- An infix of the head of a joined list is an infix of the join. -/
theorem joinSep_head_infix (m : List Char) (sep a : String) (rest : List String)
    (h : List.IsInfix m a.data) :
    List.IsInfix m (joinSep sep (a :: rest)).data := by
  cases rest with
  | nil => exact h
  | cons b rest2 =>
      show List.IsInfix m (a ++ sep ++ joinSep sep (b :: rest2)).data
      rw [String.data_append, String.data_append]
      exact h.trans
        (((List.prefix_append a.data sep.data).trans
          (List.prefix_append _ _)).isInfix)

/-- Claim C6, settled against the code: the Self-Check Validator's
community-voice marker assertion does NOT pass on the output of the
community-voice renderer.  The renderer emits the macron text
"Whakatauākī" (second conjunct), but the check's regex literal is
double-escaped and looks for the literal backslash text
`Whakatau\\u0101k\\u012B`, which never occurs (first conjunct) — so
`runSelfChecks` throws "Unicode escape missing" on the repository's own
finding set and default project context. -/
theorem claim_C6_marker_check_fails :
    unicodeMarkerCheck
        (buildStandardManaWhenua "Te Awa Industrial Upgrade - Stage 2" "(not set)"
          sampleFindings) = false ∧
    List.IsInfix "Whakatauākī".data
      (buildStandardManaWhenua "Te Awa Industrial Upgrade - Stage 2" "(not set)"
        sampleFindings).data := by
  constructor
  · cases h : unicodeMarkerCheck
        (buildStandardManaWhenua "Te Awa Industrial Upgrade - Stage 2" "(not set)"
          sampleFindings) with
    | false => rfl
    | true => exact absurd (unicodeMarkerCheck_mem _ h) (by decide)
  · exact joinSep_head_infix _ "\n\n"
      (manaWhenuaIntro "Te Awa Industrial Upgrade - Stage 2") _ (by decide)

end CIA
